import Mathlib

/-!
Shallow embedding of `src/hooks/useCoinbaseTicker.ts` (the ticker connection
manager of the blocksignal dashboard).

The hook is single-threaded and event-driven: React state plus mutable refs,
mutated by timer callbacks and WebSocket event handlers.  We embed it as a
state record `HookState` together with one Lean function per handler,
transcribed statement-by-statement from the source, and a dispatcher `step`
that delivers environment events (timer firings, socket lifecycle events,
fetch completions, manual reconnect, teardown) to the handlers.

Modelling conventions:
* JavaScript numbers that matter to the logic are `JSNum` (NaN, ±Infinity or
  a rational); `parseFloat` results are supplied by the environment at that
  interface (parseFloat is a JS builtin, not repository code).
* Timers are explicit: each `setTimeout`/`setInterval` call allocates a
  `Timer` with a fresh id, a kind and its delay; `clearTimeout`/
  `clearInterval` removes it from the pending list.  An interval timer stays
  pending when it fires; a timeout is removed.
* Sockets are explicit ids with a readyState; `ws.close()` moves a
  CONNECTING/OPEN socket to CLOSING, and delivering its close event moves it
  to CLOSED.  Event handlers are dispatched per socket id, exactly as the
  closures attached by `connect()` are.
* `console.*` logging is omitted (no observable state).
-/

namespace CoinbaseTicker

/-- A JavaScript number: NaN, +Infinity, -Infinity, or an ordinary value
(modelled as a rational). -/
inductive JSNum
  | nan
  | inf
  | negInf
  | num (q : ℚ)
deriving DecidableEq, Repr

/-- JavaScript truthiness of a number: NaN and 0 are falsy, everything else
(including ±Infinity) is truthy. -/
def JSNum.truthy : JSNum → Bool
  | .nan => false
  | .num q => decide (q ≠ 0)
  | _ => true

/-- The JS `isNaN` predicate on a number. -/
def JSNum.isNaNb : JSNum → Bool
  | .nan => true
  | _ => false

/-- Readiness of a WebSocket, mirroring the `WebSocket` readyState constants. -/
inductive ReadyState
  | CONNECTING
  | OPEN
  | CLOSING
  | CLOSED
deriving DecidableEq, Repr

/-- The kinds of timers the hook creates. -/
inductive TimerKind
  | settle            -- the 1s `wsTimeout` armed by the mount effect
  | watchdog (sock : Nat) -- the 15s `connectionTimeout` armed by `connect()` for a socket
  | watchdogRetry     -- the anonymous 3s `setTimeout(() => connect(), 3000)` in the watchdog
  | excRetry          -- the anonymous 5s retry in `connect()`'s catch block
  | reconnectT        -- `reconnectTimeoutRef`, the backoff retry armed by `ws.onclose`
  | pollInterval      -- `fallbackIntervalRef`, the 5s polling interval
deriving DecidableEq, Repr

/-- A pending timer: its id, kind and delay in milliseconds. -/
structure Timer where
  id : Nat
  kind : TimerKind
  delay : ℚ
deriving DecidableEq, Repr

/-- The stats half of a REST poll (`statsResponse.json()`), fields optional. -/
structure StatsData where
  volume : Option String
  low : Option String
  high : Option String
  volume_30day : Option String
  open_s : Option String
deriving DecidableEq, Repr

/-- Environment inputs of one `fetchPriceData()` run: network outcome, HTTP
status, the stats body, and the fields of the primary quote body.
`priceParse` is the result of `parseFloat(tickerData.price)`. -/
structure FetchInput where
  networkError : Bool
  tickerStatus : Nat
  statsOk : Bool
  stats : StatsData
  priceStr : String
  priceParse : JSNum
  time : Option String
  trade_id : Option Nat
  now : Nat
  size : Option String
  bid : Option String
  ask : Option String
  tvolume : Option String
deriving DecidableEq, Repr

/-- The `TickerData` record built by `fetchPriceData` from REST responses. -/
structure RestQuote where
  price : String
  time : Option String
  product_id : String
  sequence : Nat
  side : String
  last_size : String
  best_bid : String
  best_ask : String
  volume_24h : String
  low_24h : String
  high_24h : String
  volume_30d : String
  best_bid_size : String
  best_ask_size : String
  open_24h : String
deriving DecidableEq, Repr

/-- A successfully JSON-parsed inbound streaming message: its `type`,
`product_id` and `message` fields, and the `parseFloat` result of its
`price` field.  (Remaining payload fields are never inspected by the hook;
the stored quote keeps the whole message, modelled by keeping this record.) -/
structure ParsedMsg where
  type : String
  product_id : Option String
  priceParse : JSNum
  message : Option String
deriving DecidableEq, Repr

/-- An inbound frame: either `JSON.parse` throws, or it yields a message. -/
inductive WsRawMsg
  | malformed
  | ok (d : ParsedMsg)
deriving DecidableEq, Repr

/-- The externally visible quote: set wholesale either from a streaming
message (`setTickerData(data)`) or from a REST fetch. -/
inductive TickerSnapshot
  | fromWs (d : ParsedMsg)
  | fromRest (q : RestQuote)
deriving DecidableEq, Repr

/-- The complete state of one run of the hook: React state, refs, and the
runtime bookkeeping (sockets, pending timers, in-flight fetches). -/
structure HookState where
  productId : String
  price : Option JSNum
  tickerData : Option TickerSnapshot
  isConnected : Bool
  error : Option String
  wsRef : Option Nat
  reconnectTimeoutRef : Option Nat
  fallbackIntervalRef : Option Nat
  reconnectAttempts : Nat
  fallbackStopped : Bool
  isConnecting : Bool
  wsTimeout : Option Nat
  sockets : List (Nat × ReadyState)
  timers : List Timer
  nextSock : Nat
  nextTimer : Nat
  pendingFetches : Nat
  tornDown : Bool
deriving DecidableEq, Repr

/-- readyState of a socket id, if the socket exists. -/
def getReady (l : List (Nat × ReadyState)) (s : Nat) : Option ReadyState :=
  (l.find? (fun p => p.1 == s)).map (fun p => p.2)

/-- Replace the readyState of socket `s`. -/
def setReady (l : List (Nat × ReadyState)) (s : Nat) (r : ReadyState) :
    List (Nat × ReadyState) :=
  l.map (fun p => if p.1 = s then (p.1, r) else p)

/-- Effect of calling `ws.close()` on socket `s`: a CONNECTING or OPEN socket
moves to CLOSING; otherwise nothing changes. -/
def jsClose (st : HookState) (s : Nat) : HookState :=
  match getReady st.sockets s with
  | some .CONNECTING => { st with sockets := setReady st.sockets s .CLOSING }
  | some .OPEN => { st with sockets := setReady st.sockets s .CLOSING }
  | _ => st

/-- Allocate a fresh timer (`setTimeout` / `setInterval`). -/
def scheduleTimer (st : HookState) (k : TimerKind) (d : ℚ) : HookState × Nat :=
  ({ st with timers := ⟨st.nextTimer, k, d⟩ :: st.timers,
             nextTimer := st.nextTimer + 1 }, st.nextTimer)

/-- `clearTimeout(connectionTimeout)`: remove the watchdog of socket `s`. -/
def clearWatchdog (st : HookState) (s : Nat) : HookState :=
  { st with timers := st.timers.filter (fun t => decide (t.kind ≠ .watchdog s)) }

/-- JS `a || d` on an optional string: `undefined` and `""` are falsy. -/
def jsOrS : Option String → String → String
  | some s, d => if s = "" then d else s
  | none, d => d

/-- JS `a || d` on an optional number: `undefined` and `0` are falsy. -/
def jsOrN : Option Nat → Nat → Nat
  | some n, d => if n = 0 then d else n
  | none, d => d

/-- `stopFallback()` from the source: clear the polling interval, if any. -/
def stopFallback (st : HookState) : HookState :=
  match st.fallbackIntervalRef with
  | some tid =>
      { st with timers := st.timers.filter (fun t => decide (t.id ≠ tid)),
                fallbackIntervalRef := none }
  | none => st

/-- `startFallback()` from the source: reset the stopped flag, issue an
initial fetch, and arm a 5s polling interval (overwriting the ref; a
previously armed interval is not cleared first, exactly as in the source). -/
def startFallback (st : HookState) : HookState :=
  let st := { st with fallbackStopped := false,
                      pendingFetches := st.pendingFetches + 1 }
  let p := scheduleTimer st .pollInterval 5000
  { p.1 with fallbackIntervalRef := some p.2 }

/-- The continuation of `fetchPriceData()` once its responses resolve,
transcribed from the source (lines 41-102).  `inp` carries the environment
half: statuses and body fields. -/
def fetchPriceData (st : HookState) (inp : FetchInput) : HookState :=
  if inp.networkError then
    { st with error := some "Unable to fetch price data" }
  else if inp.tickerStatus = 429 then
    { st with error := some "Rate limited - reducing update frequency" }
  else if ¬ (200 ≤ inp.tickerStatus ∧ inp.tickerStatus < 300) then
    -- `throw new Error(...)` caught by the surrounding catch
    { st with error := some "Unable to fetch price data" }
  else
    let currentPrice := inp.priceParse
    if currentPrice.truthy && !currentPrice.isNaNb then
      let statsData : Option StatsData := if inp.statsOk then some inp.stats else none
      let realTickerData : RestQuote :=
        { price := inp.priceStr
          time := inp.time
          product_id := st.productId
          sequence := jsOrN inp.trade_id inp.now
          side := "buy"
          last_size := jsOrS inp.size "0"
          best_bid := jsOrS inp.bid "0"
          best_ask := jsOrS inp.ask "0"
          volume_24h := jsOrS (statsData.bind (fun s => s.volume))
                          (jsOrS inp.tvolume "0")
          low_24h := jsOrS (statsData.bind (fun s => s.low)) "0"
          high_24h := jsOrS (statsData.bind (fun s => s.high)) "0"
          volume_30d := jsOrS (statsData.bind (fun s => s.volume_30day)) "0"
          best_bid_size := "0"
          best_ask_size := "0"
          open_24h := jsOrS (statsData.bind (fun s => s.open_s)) "0" }
      { st with price := some currentPrice,
                tickerData := some (.fromRest realTickerData),
                error := none,
                isConnected := true }
    else
      -- `throw new Error('Invalid price data received')` caught below
      { st with error := some "Unable to fetch price data" }

/-- `connect()` from the source (lines 118-291).  `creationFails` models
`new WebSocket(...)` throwing (the catch block). -/
def connect (st : HookState) (creationFails : Bool) : HookState :=
  if st.isConnecting then st
  else
    let st := { st with isConnecting := true, error := none }
    let st := stopFallback st
    let st := { st with fallbackStopped := false }
    let st :=
      match st.wsRef with
      | some s =>
          if getReady st.sockets s ≠ some .CLOSED then
            { jsClose st s with wsRef := none }
          else st
      | none => st
    if creationFails then
      let st := { st with isConnecting := false,
                          error := some "Failed to connect to price feed" }
      if st.reconnectAttempts ≥ 2 then startFallback st
      else (scheduleTimer st .excRetry 5000).1
    else
      let sid := st.nextSock
      let st := { st with sockets := (sid, .CONNECTING) :: st.sockets,
                          nextSock := sid + 1,
                          wsRef := some sid }
      (scheduleTimer st (.watchdog sid) 15000).1

/-- The body of the 15s `connectionTimeout` watchdog (lines 143-151): if the
socket is still CONNECTING, close it, surface a timeout error, and arm the
anonymous 3s retry. -/
def watchdogFire (st : HookState) (s : Nat) : HookState :=
  if getReady st.sockets s = some .CONNECTING then
    let st := jsClose st s
    let st := { st with error := some "Connection timeout - retrying..." }
    (scheduleTimer st .watchdogRetry 3000).1
  else st

/-- `ws.onopen` (lines 153-176). `sendFails` models `ws.send` throwing. -/
def onopen (st : HookState) (s : Nat) (sendFails : Bool) : HookState :=
  let st := { st with sockets := setReady st.sockets s .OPEN }
  let st := { st with isConnecting := false }
  let st := clearWatchdog st s
  let st := { st with isConnected := true }
  if sendFails then { st with error := some "Failed to subscribe to price feed" }
  else st

/-- `ws.onmessage` (lines 178-206). -/
def onmessage (st : HookState) (m : WsRawMsg) : HookState :=
  match m with
  | .malformed => st   -- catch: only console.error
  | .ok d =>
    if d.type = "ticker" ∧ d.product_id = some st.productId then
      let st := { st with price := some d.priceParse,
                          tickerData := some (.fromWs d),
                          reconnectAttempts := 0 }
      if !st.fallbackStopped then
        { stopFallback st with fallbackStopped := true }
      else st
    else if d.type = "subscriptions" then st
    else if d.type = "error" then
      { st with error := some ("WebSocket error: " ++ jsOrS d.message "Unknown error") }
    else st

/-- `ws.onerror` (lines 208-214). -/
def onerror (st : HookState) (s : Nat) : HookState :=
  let st := { st with isConnecting := false }
  let st := clearWatchdog st s
  { st with error := some "Connection error occurred" }

/-- The close-code classification `getErrorMessage` (lines 230-247). -/
def getErrorMessage (code : Nat) : String :=
  match code with
  | 1001 => "Server going away"
  | 1002 => "Protocol error"
  | 1003 => "Unsupported data type"
  | 1005 => "No status received"
  | 1006 => "Abnormal closure"
  | 1007 => "Invalid data"
  | 1008 => "Policy violation"
  | 1009 => "Message too large"
  | 1011 => "Server error"
  | 1012 => "Service restart"
  | 1013 => "Try again later"
  | 1014 => "Bad gateway"
  | 1015 => "TLS handshake failed"
  | _ => "Connection error (" ++ toString code ++ ")"

/-- `ws.onclose` (lines 216-273).  `jitter` is the value of
`Math.random() * 2000` drawn in the backoff branch. -/
def onclose (st : HookState) (s : Nat) (code : Nat) (jitter : ℚ) : HookState :=
  let st := { st with sockets := setReady st.sockets s .CLOSED }
  let st := { st with isConnecting := false }
  let st := clearWatchdog st s
  let st := { st with isConnected := false }
  if code ≠ 1000 then
    let st := { st with reconnectAttempts := st.reconnectAttempts + 1 }
    let errorMsg := getErrorMessage code
    -- the source computes a baseDelay from shouldDelayLonger here, but
    -- shadows it below; transcribed (unused) for fidelity
    let shouldDelayLonger := code = 1008 ∨ code = 1013 ∨ code = 1014
    let _baseDelay : ℚ := if shouldDelayLonger then 30000 else 5000
    if st.reconnectAttempts ≥ 2 then
      startFallback
        { st with error := some (errorMsg ++ " - using REST API fallback") }
    else
      let st := { st with
        error := some (errorMsg ++ ". Reconnecting... ("
                        ++ toString st.reconnectAttempts ++ "/2)") }
      let baseDelay : ℚ := 10000
      let retryDelay := min (baseDelay * 2 ^ st.reconnectAttempts + jitter) 30000
      let p := scheduleTimer st .reconnectT retryDelay
      { p.1 with reconnectTimeoutRef := some p.2 }
  else st

/-- The exported `reconnect()` (lines 293-299). -/
def reconnectFn (st : HookState) (creationFails : Bool) : HookState :=
  let st :=
    match st.reconnectTimeoutRef with
    | some tid => { st with timers := st.timers.filter (fun t => decide (t.id ≠ tid)) }
    | none => st
  let st := { st with reconnectAttempts := 0 }
  connect st creationFails

/-- The `useEffect` cleanup (lines 320-345): teardown on unmount or
instrument switch. -/
def cleanup (st : HookState) : HookState :=
  let st :=
    match st.wsTimeout with
    | some tid => { st with timers := st.timers.filter (fun t => decide (t.id ≠ tid)) }
    | none => st
  let st :=
    match st.reconnectTimeoutRef with
    | some tid =>
        { st with timers := st.timers.filter (fun t => decide (t.id ≠ tid)),
                  reconnectTimeoutRef := none }
    | none => st
  let st :=
    match st.wsRef with
    | some s =>
        if getReady st.sockets s ≠ some .CLOSED then
          { jsClose st s with wsRef := none }
        else st
    | none => st
  let st := stopFallback st
  { st with isConnecting := false, fallbackStopped := false, tornDown := true }

/-- The initial React state of a fresh hook instance. -/
def initState (pid : String) : HookState :=
  { productId := pid, price := none, tickerData := none, isConnected := false,
    error := none, wsRef := none, reconnectTimeoutRef := none,
    fallbackIntervalRef := none, reconnectAttempts := 0,
    fallbackStopped := false, isConnecting := false, wsTimeout := none,
    sockets := [], timers := [], nextSock := 0, nextTimer := 0,
    pendingFetches := 0, tornDown := false }

/-- The `useEffect` body (lines 301-318): reset per-instrument state, start
polling, arm the 1s settle timer that will attempt the WebSocket. -/
def mountEffect (st : HookState) : HookState :=
  let st := { st with price := none, tickerData := none, error := none,
                      reconnectAttempts := 0 }
  let st := startFallback st
  let p := scheduleTimer st .settle 1000
  { p.1 with wsTimeout := some p.2 }

/-- Environment events delivered to one run of the hook. -/
inductive Event
  | timerFire (tid : Nat) (creationFails : Bool)
  | openEv (s : Nat) (sendFails : Bool)
  | msgEv (s : Nat) (m : WsRawMsg)
  | errEv (s : Nat)
  | closeEv (s : Nat) (code : Nat) (jitter : ℚ)
  | fetchDone (inp : FetchInput)
  | manualReconnect (creationFails : Bool)
  | teardown
deriving DecidableEq

/-- Dispatch one event: timers fire only while pending (an interval stays
pending, a timeout is consumed), socket events only in the matching
readyState, fetch completions only when a fetch is in flight. -/
def step (st : HookState) (e : Event) : HookState :=
  match e with
  | .timerFire tid cf =>
    match st.timers.find? (fun t => t.id == tid) with
    | none => st
    | some t =>
      match t.kind with
      | .pollInterval => { st with pendingFetches := st.pendingFetches + 1 }
      | k =>
        let st1 := { st with timers := st.timers.filter (fun t2 => decide (t2.id ≠ tid)) }
        match k with
        | .settle => connect st1 cf
        | .watchdog s => watchdogFire st1 s
        | .watchdogRetry => connect st1 cf
        | .excRetry =>
            connect { st1 with reconnectAttempts := st1.reconnectAttempts + 1 } cf
        | .reconnectT => connect st1 cf
        | .pollInterval => st1
  | .openEv s sendFails =>
      if getReady st.sockets s = some .CONNECTING then onopen st s sendFails else st
  | .msgEv s m =>
      if getReady st.sockets s = some .OPEN then onmessage st m else st
  | .errEv s =>
      match getReady st.sockets s with
      | some .CLOSED => st
      | some _ => onerror st s
      | none => st
  | .closeEv s code jitter =>
      match getReady st.sockets s with
      | some .CLOSED => st
      | some _ => onclose st s code jitter
      | none => st
  | .fetchDone inp =>
      if st.pendingFetches = 0 then st
      else fetchPriceData { st with pendingFetches := st.pendingFetches - 1 } inp
  | .manualReconnect cf => reconnectFn st cf
  | .teardown => cleanup st

/-- A run of the hook: mount, then fold the event trace. -/
def run (pid : String) (es : List Event) : HookState :=
  es.foldl step (mountEffect (initState pid))

/-! ## Helper lemmas: which handlers touch the attempt counter -/

theorem stopFallback_attempts (st : HookState) :
    (stopFallback st).reconnectAttempts = st.reconnectAttempts := by
  unfold stopFallback; split <;> rfl

theorem startFallback_attempts (st : HookState) :
    (startFallback st).reconnectAttempts = st.reconnectAttempts := rfl

theorem jsClose_attempts (st : HookState) (s : Nat) :
    (jsClose st s).reconnectAttempts = st.reconnectAttempts := by
  unfold jsClose; split <;> rfl

theorem connect_attempts (st : HookState) (cf : Bool) :
    (connect st cf).reconnectAttempts = st.reconnectAttempts := by
  obtain ⟨pid, price, td, ic, err, wsr, rtr, fir, ra, fs, icg, wt, socks, tms, ns, nt, pf, torn⟩ := st
  cases icg <;> cases cf <;> rcases fir with _ | fi <;> rcases wsr with _ | s <;>
    simp only [connect, stopFallback, startFallback, scheduleTimer] <;>
    repeat' split <;>
    simp_all [jsClose_attempts]

theorem fetchPriceData_attempts (st : HookState) (inp : FetchInput) :
    (fetchPriceData st inp).reconnectAttempts = st.reconnectAttempts := by
  unfold fetchPriceData
  split
  · rfl
  split
  · rfl
  split
  · rfl
  dsimp only
  split <;> rfl

theorem cleanup_attempts (st : HookState) :
    (cleanup st).reconnectAttempts = st.reconnectAttempts := by
  obtain ⟨pid, price, td, ic, err, wsr, rtr, fir, ra, fs, icg, wt, socks, tms, ns, nt, pf, torn⟩ := st
  rcases wt with _ | t1 <;> rcases rtr with _ | t2 <;> rcases wsr with _ | s <;>
    rcases fir with _ | fi <;>
    simp only [cleanup, stopFallback] <;>
    repeat' split <;>
    simp_all [jsClose_attempts]

theorem onopen_attempts (st : HookState) (s : Nat) (b : Bool) :
    (onopen st s b).reconnectAttempts = st.reconnectAttempts := by
  unfold onopen clearWatchdog
  split <;> rfl

theorem onerror_attempts (st : HookState) (s : Nat) :
    (onerror st s).reconnectAttempts = st.reconnectAttempts := rfl

theorem watchdogFire_attempts (st : HookState) (s : Nat) :
    (watchdogFire st s).reconnectAttempts = st.reconnectAttempts := by
  unfold watchdogFire
  split
  · exact jsClose_attempts st s
  · rfl

theorem onclose_attempts (st : HookState) (s : Nat) (code : Nat) (jitter : ℚ) :
    (onclose st s code jitter).reconnectAttempts =
      if code = 1000 then st.reconnectAttempts else st.reconnectAttempts + 1 := by
  unfold onclose clearWatchdog
  by_cases h : code = 1000 <;>
    simp only [h, if_true, if_false, ite_true, ite_false, if_neg, if_pos] <;>
    repeat' split <;>
    simp_all [startFallback, scheduleTimer]

theorem onmessage_attempts (st : HookState) (m : WsRawMsg)
    (h : (onmessage st m).reconnectAttempts = 0) :
    st.reconnectAttempts = 0
    ∨ ∃ d, m = .ok d ∧ d.type = "ticker" ∧ d.product_id = some st.productId := by
  rcases m with _ | d
  · exact Or.inl h
  · by_cases hm : d.type = "ticker" ∧ d.product_id = some st.productId
    · exact Or.inr ⟨d, rfl, hm⟩
    · left
      revert h
      simp only [onmessage]
      rw [if_neg hm]
      split
      · exact id
      split <;> exact id

/-- C3: for every close event with code ≠ 1000 the attempt counter increases
by exactly 1 (first conjunct); the open handler never resets it (second
conjunct); and across every event of a run, the counter can become 0 only if
it already was 0, or the event is a successfully parsed ticker message for
the subscribed instrument, or a manual reconnect() call (third conjunct). -/
theorem C3_attempt_counter :
    (∀ (st : HookState) (s code : Nat) (j : ℚ), code ≠ 1000 →
      (onclose st s code j).reconnectAttempts = st.reconnectAttempts + 1)
    ∧ (∀ (st : HookState) (s : Nat) (b : Bool),
      (onopen st s b).reconnectAttempts = st.reconnectAttempts)
    ∧ (∀ (st : HookState) (e : Event), (step st e).reconnectAttempts = 0 →
      st.reconnectAttempts = 0
      ∨ (∃ s d, e = .msgEv s (.ok d) ∧ d.type = "ticker"
          ∧ d.product_id = some st.productId)
      ∨ (∃ cf, e = .manualReconnect cf)) := by
  refine ⟨?_, onopen_attempts, ?_⟩
  · intro st s code j h
    rw [onclose_attempts, if_neg h]
  · intro st e h
    cases e with
    | timerFire tid cf =>
      left
      revert h
      simp only [step]
      rcases hf : st.timers.find? (fun t => t.id == tid) with _ | ⟨i, k, d⟩ <;>
        rw [hf]
      · exact id
      · cases k <;> try dsimp only
        case settle => rw [connect_attempts]; exact id
        case watchdogRetry => rw [connect_attempts]; exact id
        case reconnectT => rw [connect_attempts]; exact id
        case watchdog s => rw [watchdogFire_attempts]; exact id
        case pollInterval => exact id
        case excRetry =>
          intro h
          rw [connect_attempts] at h
          exact absurd h (Nat.succ_ne_zero _)
    | openEv s b =>
      left; revert h; simp only [step]
      split
      · rw [onopen_attempts]; exact id
      · exact id
    | msgEv s m =>
      revert h; simp only [step]
      split
      · intro h
        rcases onmessage_attempts st m h with h1 | ⟨d, hd, h2, h3⟩
        · exact Or.inl h1
        · exact Or.inr (Or.inl ⟨s, d, by rw [hd], h2, h3⟩)
      · exact fun h => Or.inl h
    | errEv s =>
      left; revert h; simp only [step]
      rcases hg : getReady st.sockets s with _ | r
      · exact id
      · cases r <;> exact id
    | closeEv s code j =>
      left; revert h; simp only [step]
      rcases hg : getReady st.sockets s with _ | r
      · exact id
      · cases r <;> try exact id
        all_goals
          rw [onclose_attempts]
          split
          · exact id
          · intro h; exact absurd h (Nat.succ_ne_zero _)
    | fetchDone inp =>
      left; revert h; simp only [step]
      split
      · exact id
      · rw [fetchPriceData_attempts]; exact id
    | manualReconnect cf => exact Or.inr (Or.inr ⟨cf, rfl⟩)
    | teardown =>
      left; rw [step, cleanup_attempts] at h; exact h

/-- Witness for C3 at a concrete input: an abnormal close (code 1006) on the
freshly mounted state takes the counter from 0 to 1. -/
theorem C3_attempt_counter_witness :
    (1006 : Nat) ≠ 1000 ∧
      (onclose (mountEffect (initState "BTC-USD")) 0 1006 0).reconnectAttempts
        = (mountEffect (initState "BTC-USD")).reconnectAttempts + 1 :=
  ⟨by decide, C3_attempt_counter.1 (mountEffect (initState "BTC-USD")) 0 1006 0 (by decide)⟩

/-- C7: an abnormal close handled with the counter at 1 after the increment
surfaces "<reason>. Reconnecting... (1/2)" and schedules exactly one retry,
with delay min(10000 * 2^attemptCount + jitter, 30000) for the drawn jitter
in [0, 2000). -/
theorem C7_backoff_schedule (st : HookState) (s code : Nat) (j : ℚ)
    (hcode : code ≠ 1000) (h1 : st.reconnectAttempts = 0)
    (hj0 : 0 ≤ j) (hj2 : j < 2000) :
    (onclose st s code j).error
      = some (getErrorMessage code ++ ". Reconnecting... (1/2)")
    ∧ (onclose st s code j).reconnectTimeoutRef = some st.nextTimer
    ∧ (onclose st s code j).timers
      = ⟨st.nextTimer, .reconnectT, min (10000 * 2 ^ (1 : ℕ) + j) 30000⟩
        :: st.timers.filter (fun t => decide (t.kind ≠ .watchdog s)) := by
  obtain ⟨pid, price, td, ic, err, wsr, rtr, fir, ra, fs, icg, wt, socks, tms, ns, nt, pf, torn⟩ := st
  dsimp only at h1
  subst h1
  refine ⟨?_, ?_, ?_⟩ <;>
    simp [onclose, clearWatchdog, scheduleTimer, hcode, startFallback] <;>
    rw [String.append_assoc, String.append_assoc] <;> rfl

/-- Witness for C7: an abnormal close (code 1006, jitter 0) on the freshly
mounted state surfaces the (1/2) reconnect message. -/
theorem C7_backoff_schedule_witness :
    (1006 : Nat) ≠ 1000 ∧ (mountEffect (initState "BTC-USD")).reconnectAttempts = 0
    ∧ (0 : ℚ) ≤ 0 ∧ (0 : ℚ) < 2000
    ∧ (onclose (mountEffect (initState "BTC-USD")) 0 1006 0).error
        = some "Abnormal closure. Reconnecting... (1/2)" :=
  ⟨by decide, rfl, le_refl 0, by norm_num,
    (C7_backoff_schedule (mountEffect (initState "BTC-USD")) 0 1006 0
      (by decide) rfl (le_refl 0) (by norm_num)).1⟩

/-- C8: when the 15s watchdog fires while its socket is still CONNECTING,
the socket is closed, a timeout error is surfaced, exactly one retry is
scheduled with a fixed 3000 ms delay, and the reconnect attempt counter is
unchanged. -/
theorem C8_watchdog_timeout (st : HookState) (s : Nat)
    (h : getReady st.sockets s = some .CONNECTING) :
    (watchdogFire st s).sockets = setReady st.sockets s .CLOSING
    ∧ (watchdogFire st s).error = some "Connection timeout - retrying..."
    ∧ (watchdogFire st s).timers = ⟨st.nextTimer, .watchdogRetry, 3000⟩ :: st.timers
    ∧ (watchdogFire st s).reconnectAttempts = st.reconnectAttempts := by
  unfold watchdogFire jsClose
  rw [if_pos h, h]
  exact ⟨rfl, rfl, rfl, rfl⟩

/-- Witness for C8: after mount and the settle-timer connect, socket 0 is
CONNECTING; firing its watchdog surfaces the timeout error and arms the 3s
retry without touching the attempt counter. -/
theorem C8_watchdog_timeout_witness :
    getReady (run "BTC-USD" [.timerFire 1 false]).sockets 0 = some .CONNECTING
    ∧ (watchdogFire (run "BTC-USD" [.timerFire 1 false]) 0).error
        = some "Connection timeout - retrying..."
    ∧ (watchdogFire (run "BTC-USD" [.timerFire 1 false]) 0).reconnectAttempts
        = (run "BTC-USD" [.timerFire 1 false]).reconnectAttempts :=
  ⟨rfl, (C8_watchdog_timeout (run "BTC-USD" [.timerFire 1 false]) 0 rfl).2.1,
    (C8_watchdog_timeout (run "BTC-USD" [.timerFire 1 false]) 0 rfl).2.2.2⟩

/-! ## Further field lemmas for the close handler -/

theorem onclose_isConnected (st : HookState) (s : Nat) (code : Nat) (j : ℚ) :
    (onclose st s code j).isConnected = false := by
  unfold onclose clearWatchdog
  by_cases h : code = 1000 <;>
    simp only [h, if_pos, if_neg, ite_true, ite_false] <;>
    repeat' split <;> simp_all [startFallback, scheduleTimer]

theorem onclose_isConnecting (st : HookState) (s : Nat) (code : Nat) (j : ℚ) :
    (onclose st s code j).isConnecting = false := by
  unfold onclose clearWatchdog
  by_cases h : code = 1000 <;>
    simp only [h, if_pos, if_neg, ite_true, ite_false] <;>
    repeat' split <;> simp_all [startFallback, scheduleTimer]

/-- The trace behind the C4 counterexample: settle-timer connect, watchdog
timeout on socket 0 (arming the anonymous 3s retry, timer 3), abnormal close
of socket 0 (attempt 1), the 3s retry connecting socket 1 (watchdog timer 5),
watchdog timeout on socket 1 (arming retry timer 6), and the abnormal close
of socket 1, which takes the counter to 2 and switches to the REST fallback. -/
def traceC4 : List Event :=
  [.timerFire 1 false, .timerFire 2 false, .closeEv 0 1006 0,
   .timerFire 3 false, .timerFire 5 false, .closeEv 1 1006 0]

/-- C4 counterexample: after the close that raises the counter to 2 the
manager surfaces the fallback error and reactivates polling, but the
watchdog's 3-second retry (timer 6), armed before that close, is still
pending, and firing it — with no manual reconnect() anywhere in the trace —
performs a further automatic connect attempt (a new socket is created and
the in-flight flag is set). -/
theorem C4_counterexample :
    (run "BTC-USD" traceC4).reconnectAttempts = 2
    ∧ (run "BTC-USD" traceC4).error
        = some "Abnormal closure - using REST API fallback"
    ∧ (run "BTC-USD" traceC4).fallbackIntervalRef = some 7
    ∧ ⟨6, .watchdogRetry, 3000⟩ ∈ (run "BTC-USD" traceC4).timers
    ∧ (run "BTC-USD" traceC4).nextSock = 2
    ∧ (step (run "BTC-USD" traceC4) (.timerFire 6 false)).nextSock = 3
    ∧ (step (run "BTC-USD" traceC4) (.timerFire 6 false)).isConnecting = true := by
  refine ⟨rfl, rfl, rfl, ?_, rfl, rfl, rfl⟩
  decide

/-- C4 amended: when an abnormal close raises the counter to 2 or more, the
close handler surfaces "<reason> - using REST API fallback", reactivates
polling, and schedules no new timer other than the polling interval — but
previously scheduled automatic retries are not cancelled (see the
counterexample). -/
theorem C4_fallback_close (st : HookState) (s code : Nat) (j : ℚ)
    (hcode : code ≠ 1000) (h2 : st.reconnectAttempts + 1 ≥ 2) :
    (onclose st s code j).error
      = some (getErrorMessage code ++ " - using REST API fallback")
    ∧ (onclose st s code j).fallbackIntervalRef = some st.nextTimer
    ∧ (onclose st s code j).reconnectAttempts = st.reconnectAttempts + 1
    ∧ ∀ t ∈ (onclose st s code j).timers,
        t ∈ st.timers ∨ t.kind = .pollInterval := by
  obtain ⟨pid, price, td, ic, err, wsr, rtr, fir, ra, fs, icg, wt, socks, tms, ns, nt, pf, torn⟩ := st
  dsimp only at h2 ⊢
  unfold onclose clearWatchdog
  rw [if_pos hcode]
  dsimp only
  rw [if_pos h2]
  refine ⟨rfl, rfl, rfl, ?_⟩
  intro t ht
  simp only [startFallback, scheduleTimer, List.mem_cons] at ht
  rcases ht with rfl | ht
  · exact Or.inr rfl
  · exact Or.inl (List.mem_of_mem_filter ht)

/-- Witness for the amended C4: a second abnormal close (code 1006) on a
state whose counter is already 1 surfaces the fallback error. -/
theorem C4_fallback_close_witness :
    (1006 : Nat) ≠ 1000
    ∧ (run "BTC-USD" [.timerFire 1 false, .closeEv 0 1006 0]).reconnectAttempts + 1 ≥ 2
    ∧ (onclose (run "BTC-USD" [.timerFire 1 false, .closeEv 0 1006 0]) 1 1006 0).error
        = some "Abnormal closure - using REST API fallback" :=
  ⟨by decide, by decide,
    (C4_fallback_close (run "BTC-USD" [.timerFire 1 false, .closeEv 0 1006 0])
      1 1006 0 (by decide) (by decide)).1⟩

/-- The trace behind the C5 counterexample: settle-timer connect creates
socket 0, which opens; a manual reconnect() then supersedes it with socket 1
(socket 0 is closed by `connect()` but its close event has not yet arrived). -/
def traceC5 : List Event :=
  [.timerFire 1 false, .openEv 0 false, .manualReconnect false]

/-- C5 counterexample: in the state reached by `traceC5`, socket 0 is no
longer the tracked socket (`wsRef = some 1`), yet delivering socket 0's
abnormal close event (code 1006) increments the attempt counter from 0 to 1,
toggles the connected flag from true to false, clears the in-flight guard of
the newer connect, and schedules a reconnect timer — the close handler has
no currently-tracked-socket guard. -/
theorem C5_counterexample :
    (run "BTC-USD" traceC5).wsRef = some 1
    ∧ (run "BTC-USD" traceC5).reconnectAttempts = 0
    ∧ (run "BTC-USD" traceC5).isConnected = true
    ∧ (run "BTC-USD" traceC5).isConnecting = true
    ∧ (run "BTC-USD" traceC5).reconnectTimeoutRef = none
    ∧ (step (run "BTC-USD" traceC5) (.closeEv 0 1006 0)).reconnectAttempts = 1
    ∧ (step (run "BTC-USD" traceC5) (.closeEv 0 1006 0)).isConnected = false
    ∧ (step (run "BTC-USD" traceC5) (.closeEv 0 1006 0)).isConnecting = false
    ∧ (step (run "BTC-USD" traceC5) (.closeEv 0 1006 0)).reconnectTimeoutRef = some 4 :=
  ⟨rfl, rfl, rfl, rfl, rfl, rfl, rfl, rfl, rfl⟩

/-- C5 amended: the close handler performs no socket-identity check; a close
event from a superseded socket is processed exactly like one from the
current socket.  A normal-code (1000) stale close performs no recovery, but
an abnormal-code stale close still increments the attempt counter, sets the
connected flag to false and clears the in-flight guard. -/
theorem C5_stale_close_unguarded (st : HookState) (s code : Nat) (j : ℚ)
    (hstale : st.wsRef ≠ some s) (hcode : code ≠ 1000) :
    (onclose st s code j).reconnectAttempts = st.reconnectAttempts + 1
    ∧ (onclose st s code j).isConnected = false
    ∧ (onclose st s code j).isConnecting = false := by
  refine ⟨?_, onclose_isConnected st s code j, onclose_isConnecting st s code j⟩
  rw [onclose_attempts, if_neg hcode]

/-- Witness for the amended C5: in the superseded-socket state of `traceC5`,
socket 0 is stale and its 1006 close still increments the counter. -/
theorem C5_stale_close_unguarded_witness :
    (run "BTC-USD" traceC5).wsRef ≠ some 0 ∧ (1006 : Nat) ≠ 1000
    ∧ (onclose (run "BTC-USD" traceC5) 0 1006 0).reconnectAttempts
        = (run "BTC-USD" traceC5).reconnectAttempts + 1 :=
  ⟨by decide, by decide,
    (C5_stale_close_unguarded (run "BTC-USD" traceC5) 0 1006 0
      (by decide) (by decide)).1⟩

theorem jsClose_timers (st : HookState) (s : Nat) :
    (jsClose st s).timers = st.timers := by
  unfold jsClose; split <;> rfl

theorem jsClose_fallbackIntervalRef (st : HookState) (s : Nat) :
    (jsClose st s).fallbackIntervalRef = st.fallbackIntervalRef := by
  unfold jsClose; split <;> rfl

/-- C6 counterexample: after the settle-timer connect (socket 0, watchdog
timer 2) and a watchdog timeout (which arms the anonymous 3-second retry,
timer 3), teardown runs — yet timer 3 survives it, and firing it afterwards
executes `connect()`: a new socket is created and the in-flight flag set
after teardown completed. -/
theorem C6_counterexample :
    (run "BTC-USD" [.timerFire 1 false, .timerFire 2 false, .teardown]).tornDown = true
    ∧ (run "BTC-USD" [.timerFire 1 false, .timerFire 2 false, .teardown]).timers
        = [⟨3, .watchdogRetry, 3000⟩]
    ∧ (step (run "BTC-USD" [.timerFire 1 false, .timerFire 2 false, .teardown])
        (.timerFire 3 false)).nextSock
        = (run "BTC-USD" [.timerFire 1 false, .timerFire 2 false, .teardown]).nextSock + 1
    ∧ (step (run "BTC-USD" [.timerFire 1 false, .timerFire 2 false, .teardown])
        (.timerFire 3 false)).isConnecting = true :=
  ⟨rfl, rfl, rfl, rfl⟩

/-- C6 amended: teardown cancels exactly the timers the hook tracks by ref —
the settle delay, a pending backoff reconnect, and the current polling
interval — and marks the manager torn down; every surviving timer is a
previously pending one whose id is none of those three refs (in particular
the anonymous watchdog 3-second retry and exception-path retry survive and
can still fire `connect()`, as the counterexample shows). -/
theorem jsClose_reconnectTimeoutRef (st : HookState) (s : Nat) :
    (jsClose st s).reconnectTimeoutRef = st.reconnectTimeoutRef := by
  unfold jsClose; split <;> rfl

theorem jsClose_tornDown (st : HookState) (s : Nat) :
    (jsClose st s).tornDown = st.tornDown := by
  unfold jsClose; split <;> rfl

theorem C6_cleanup_tracked_timers (st : HookState) :
    (cleanup st).reconnectTimeoutRef = none
    ∧ (cleanup st).fallbackIntervalRef = none
    ∧ (cleanup st).tornDown = true
    ∧ ∀ t ∈ (cleanup st).timers,
        t ∈ st.timers ∧ some t.id ≠ st.wsTimeout
          ∧ some t.id ≠ st.reconnectTimeoutRef
          ∧ some t.id ≠ st.fallbackIntervalRef := by
  refine ⟨?_, ?_, ?_, ?_⟩
  · obtain ⟨pid, price, td, ic, err, wsr, rtr, fir, ra, fs, icg, wt, socks, tms, ns, nt, pf, torn⟩ := st
    rcases wt with _ | t1 <;> rcases rtr with _ | t2 <;> rcases fir with _ | t3 <;>
      rcases wsr with _ | s <;>
      simp only [cleanup, stopFallback] <;>
      repeat' split <;>
      simp_all [jsClose_reconnectTimeoutRef]
  · obtain ⟨pid, price, td, ic, err, wsr, rtr, fir, ra, fs, icg, wt, socks, tms, ns, nt, pf, torn⟩ := st
    rcases wt with _ | t1 <;> rcases rtr with _ | t2 <;> rcases fir with _ | t3 <;>
      rcases wsr with _ | s <;>
      simp only [cleanup, stopFallback] <;>
      repeat' split <;>
      simp_all [jsClose_fallbackIntervalRef]
  · obtain ⟨pid, price, td, ic, err, wsr, rtr, fir, ra, fs, icg, wt, socks, tms, ns, nt, pf, torn⟩ := st
    rcases wt with _ | t1 <;> rcases rtr with _ | t2 <;> rcases fir with _ | t3 <;>
      rcases wsr with _ | s <;>
      simp only [cleanup, stopFallback] <;>
      repeat' split <;>
      simp_all [jsClose_tornDown]
  · obtain ⟨pid, price, td, ic, err, wsr, rtr, fir, ra, fs, icg, wt, socks, tms, ns, nt, pf, torn⟩ := st
    rcases wt with _ | t1 <;> rcases rtr with _ | t2 <;> rcases fir with _ | t3 <;>
      rcases wsr with _ | s <;>
      (try by_cases hg : getReady socks s = some ReadyState.CLOSED) <;>
      simp_all only [cleanup, stopFallback, jsClose_timers, jsClose_fallbackIntervalRef,
        ne_eq, not_true_eq_false, not_false_eq_true, if_true, if_false, ite_true,
        ite_false] <;>
      intro t ht <;>
      (try simp only [jsClose_timers, List.mem_filter, decide_eq_true_eq] at ht) <;>
      simp_all

/-- Witness for the amended C6: tearing down the C6-counterexample state
leaves no tracked refs and only timer 3 (the untracked watchdog retry). -/
theorem C6_cleanup_tracked_timers_witness :
    ⟨3, .watchdogRetry, 3000⟩ ∈
        (cleanup (run "BTC-USD" [.timerFire 1 false, .timerFire 2 false])).timers
    ∧ (⟨3, .watchdogRetry, 3000⟩ : Timer) ∈
        (run "BTC-USD" [.timerFire 1 false, .timerFire 2 false]).timers
    ∧ (cleanup (run "BTC-USD" [.timerFire 1 false, .timerFire 2 false])).reconnectTimeoutRef
        = none :=
  ⟨by decide,
    ((C6_cleanup_tracked_timers (run "BTC-USD" [.timerFire 1 false, .timerFire 2 false])).2.2.2
      ⟨3, .watchdogRetry, 3000⟩ (by decide)).1,
    (C6_cleanup_tracked_timers (run "BTC-USD" [.timerFire 1 false, .timerFire 2 false])).1⟩

/-- C1 counterexample: in the reachable state after mount and the settle
timer (which calls `connect()`), no streaming message has ever been
processed — price and quote are still null and the socket is still
CONNECTING — yet the polling interval has already been cleared by
`connect()` itself, so polling is deactivated before the first valid
matching-product message. -/
theorem C1_counterexample :
    (run "BTC-USD" [.timerFire 1 false]).fallbackIntervalRef = none
    ∧ (run "BTC-USD" [.timerFire 1 false]).price = none
    ∧ (run "BTC-USD" [.timerFire 1 false]).tickerData = none
    ∧ (run "BTC-USD" [.timerFire 1 false]).wsRef = some 0
    ∧ getReady (run "BTC-USD" [.timerFire 1 false]).sockets 0 = some .CONNECTING :=
  ⟨rfl, rfl, rfl, rfl, rfl⟩

/-- C1 amended: every connect attempt that actually proceeds (the in-flight
guard is clear and socket creation does not throw) deactivates the polling
interval immediately, before any streaming data can arrive; polling is
therefore inactive from the start of each attempt, not only after the first
valid ticker message. -/
theorem C1_connect_stops_polling (st : HookState)
    (h : st.isConnecting = false) :
    (connect st false).fallbackIntervalRef = none := by
  obtain ⟨pid, price, td, ic, err, wsr, rtr, fir, ra, fs, icg, wt, socks, tms, ns, nt, pf, torn⟩ := st
  dsimp only at h
  subst h
  rcases fir with _ | fi <;> rcases wsr with _ | s <;>
    simp only [connect, stopFallback, scheduleTimer, Bool.false_eq_true,
      if_false, ite_false] <;>
    repeat' split <;>
    simp_all [jsClose_fallbackIntervalRef]

/-- Witness for the amended C1: connecting from the freshly mounted state
(polling interval armed, not yet connecting) clears the polling interval. -/
theorem C1_connect_stops_polling_witness :
    (mountEffect (initState "BTC-USD")).isConnecting = false
    ∧ (mountEffect (initState "BTC-USD")).fallbackIntervalRef = some 0
    ∧ (connect (mountEffect (initState "BTC-USD")) false).fallbackIntervalRef = none :=
  ⟨rfl, rfl, C1_connect_stops_polling (mountEffect (initState "BTC-USD")) rfl⟩

/-- A REST poll response carrying price "50000.00" (parse result 50000). -/
def goodFetch : FetchInput :=
  { networkError := false, tickerStatus := 200, statsOk := false,
    stats := ⟨none, none, none, none, none⟩, priceStr := "50000.00",
    priceParse := .num 50000, time := none, trade_id := none, now := 1,
    size := none, bid := none, ask := none, tvolume := none }

/-- The trace behind the C2 counterexample: a successful initial REST fetch
(visible price 50000), then the settle-timer connect and the socket opening. -/
def traceC2 : List Event := [.fetchDone goodFetch, .timerFire 1 false, .openEv 0 false]

/-- C2 counterexample: a streaming ticker for the subscribed instrument
whose price field does not parse to a valid number (parse result NaN) is
processed without any validation: it overwrites the visible price 50000
with NaN and replaces the stored quote — contradicting the claim that such
a malformed message leaves price and quote unchanged. -/
theorem C2_counterexample :
    (run "BTC-USD" traceC2).price = some (.num 50000)
    ∧ (step (run "BTC-USD" traceC2)
        (.msgEv 0 (.ok ⟨"ticker", some "BTC-USD", .nan, none⟩))).price = some .nan
    ∧ (step (run "BTC-USD" traceC2)
        (.msgEv 0 (.ok ⟨"ticker", some "BTC-USD", .nan, none⟩))).tickerData
        = some (.fromWs ⟨"ticker", some "BTC-USD", .nan, none⟩) :=
  ⟨rfl, rfl, rfl⟩

/-- C2 amended: an inbound message that is unparseable as JSON, of
non-ticker type, or a ticker for a different instrument leaves the visible
price and quote unchanged and touches neither the attempt counter nor the
connected flag; but a matching-instrument ticker is accepted without price
validation, so an unparseable price overwrites the visible price with NaN
(see the counterexample). -/
theorem C2_nonticker_no_effect (st : HookState) (m : WsRawMsg)
    (h : m = .malformed ∨ ∃ d, m = .ok d
        ∧ ¬(d.type = "ticker" ∧ d.product_id = some st.productId)) :
    (onmessage st m).price = st.price
    ∧ (onmessage st m).tickerData = st.tickerData
    ∧ (onmessage st m).reconnectAttempts = st.reconnectAttempts
    ∧ (onmessage st m).isConnected = st.isConnected := by
  rcases h with rfl | ⟨d, rfl, hm⟩
  · exact ⟨rfl, rfl, rfl, rfl⟩
  · simp only [onmessage]
    rw [if_neg hm]
    split
    · exact ⟨rfl, rfl, rfl, rfl⟩
    split <;> exact ⟨rfl, rfl, rfl, rfl⟩

/-- Witness for the amended C2: a ticker for a different instrument
(ETH-USD while subscribed to BTC-USD) leaves the visible price unchanged. -/
theorem C2_nonticker_no_effect_witness :
    (onmessage (run "BTC-USD" traceC2)
        (.ok ⟨"ticker", some "ETH-USD", .num 3000, none⟩)).price
      = (run "BTC-USD" traceC2).price :=
  (C2_nonticker_no_effect (run "BTC-USD" traceC2)
    (.ok ⟨"ticker", some "ETH-USD", .num 3000, none⟩)
    (Or.inr ⟨_, rfl, by decide⟩)).1

/-! ## Outcome of a polling fetch whose primary response succeeded -/

theorem fetchPriceData_success (st : HookState) (inp : FetchInput)
    (hn : inp.networkError = false) (h429 : inp.tickerStatus ≠ 429)
    (hok : 200 ≤ inp.tickerStatus ∧ inp.tickerStatus < 300)
    (ht : inp.priceParse.truthy = true) :
    (fetchPriceData st inp).price = some inp.priceParse
    ∧ (fetchPriceData st inp).error = none
    ∧ (fetchPriceData st inp).isConnected = true
    ∧ ∃ q : RestQuote, (fetchPriceData st inp).tickerData = some (.fromRest q)
        ∧ q.price = inp.priceStr := by
  have hb : (inp.priceParse.truthy && !inp.priceParse.isNaNb) = true := by
    cases hq : inp.priceParse <;> simp_all [JSNum.truthy, JSNum.isNaNb]
  unfold fetchPriceData
  rw [if_neg (by simp [hn]), if_neg h429, if_neg (not_not_intro hok)]
  dsimp only
  rw [if_pos hb]
  exact ⟨rfl, rfl, rfl, _, rfl, rfl⟩

theorem fetchPriceData_invalid (st : HookState) (inp : FetchInput)
    (hn : inp.networkError = false) (h429 : inp.tickerStatus ≠ 429)
    (hok : 200 ≤ inp.tickerStatus ∧ inp.tickerStatus < 300)
    (ht : inp.priceParse.truthy = false) :
    (fetchPriceData st inp).price = st.price
    ∧ (fetchPriceData st inp).tickerData = st.tickerData
    ∧ (fetchPriceData st inp).error = some "Unable to fetch price data"
    ∧ (fetchPriceData st inp).fallbackIntervalRef = st.fallbackIntervalRef
    ∧ (fetchPriceData st inp).isConnected = st.isConnected := by
  have hb : ¬ ((inp.priceParse.truthy && !inp.priceParse.isNaNb) = true) := by
    simp [ht]
  unfold fetchPriceData
  rw [if_neg (by simp [hn]), if_neg h429, if_neg (not_not_intro hok)]
  dsimp only
  rw [if_neg hb]
  exact ⟨rfl, rfl, rfl, rfl, rfl⟩

/-- C9 counterexample: the claimed "Quote emitted iff the price parses to a
finite number" fails in both directions.  With the visible price at 50000:
a parse result of 0 (finite) is rejected — the fetch surfaces the generic
error and leaves the price unchanged — while a parse result of +Infinity
(non-finite) is accepted and becomes the visible price with the error
cleared. -/
theorem C9_counterexample :
    (run "BTC-USD" [.fetchDone goodFetch]).price = some (.num 50000)
    ∧ (fetchPriceData (run "BTC-USD" [.fetchDone goodFetch])
        { goodFetch with priceParse := .num 0 }).price = some (.num 50000)
    ∧ (fetchPriceData (run "BTC-USD" [.fetchDone goodFetch])
        { goodFetch with priceParse := .num 0 }).error
        = some "Unable to fetch price data"
    ∧ (fetchPriceData (run "BTC-USD" [.fetchDone goodFetch])
        { goodFetch with priceParse := .inf }).price = some .inf
    ∧ (fetchPriceData (run "BTC-USD" [.fetchDone goodFetch])
        { goodFetch with priceParse := .inf }).error = none :=
  ⟨rfl, rfl, rfl, rfl, rfl⟩

/-- C9 amended: for a polling fetch whose primary quote response succeeds, a
Quote is emitted iff the parsed price is truthy as a JavaScript number —
nonzero and not NaN, which includes ±Infinity and excludes 0; otherwise no
Quote is emitted, the previously visible price and quote are unchanged, the
generic "Unable to fetch price data" error is surfaced, and the polling
interval keeps running. -/
theorem C9_quote_iff_truthy (st : HookState) (inp : FetchInput)
    (hn : inp.networkError = false) (h429 : inp.tickerStatus ≠ 429)
    (hok : 200 ≤ inp.tickerStatus ∧ inp.tickerStatus < 300) :
    (inp.priceParse.truthy = true →
      (fetchPriceData st inp).price = some inp.priceParse
      ∧ (fetchPriceData st inp).error = none
      ∧ ∃ q : RestQuote, (fetchPriceData st inp).tickerData = some (.fromRest q)
          ∧ q.price = inp.priceStr)
    ∧ (inp.priceParse.truthy = false →
      (fetchPriceData st inp).price = st.price
      ∧ (fetchPriceData st inp).tickerData = st.tickerData
      ∧ (fetchPriceData st inp).error = some "Unable to fetch price data"
      ∧ (fetchPriceData st inp).fallbackIntervalRef = st.fallbackIntervalRef) := by
  constructor
  · intro ht
    obtain ⟨h1, h2, _, h4⟩ := fetchPriceData_success st inp hn h429 hok ht
    exact ⟨h1, h2, h4⟩
  · intro ht
    obtain ⟨h1, h2, h3, h4, _⟩ := fetchPriceData_invalid st inp hn h429 hok ht
    exact ⟨h1, h2, h3, h4⟩

/-- Witness for the amended C9: on the fresh state, `goodFetch` (price
parse 50000, truthy) emits the quote and a variant parsing to 0 (falsy)
surfaces the generic error. -/
theorem C9_quote_iff_truthy_witness :
    goodFetch.networkError = false ∧ goodFetch.tickerStatus = 200
    ∧ (fetchPriceData (initState "BTC-USD") goodFetch).price = some (.num 50000)
    ∧ (fetchPriceData (initState "BTC-USD")
        { goodFetch with priceParse := .num 0 }).error
        = some "Unable to fetch price data" :=
  ⟨rfl, rfl,
    ((C9_quote_iff_truthy (initState "BTC-USD") goodFetch rfl (by decide)
      (by decide)).1 (by decide)).1,
    ((C9_quote_iff_truthy (initState "BTC-USD") { goodFetch with priceParse := .num 0 }
      rfl (by decide) (by decide)).2 (by decide)).2.2.1⟩

/-- C10: every successful polling fetch sets the connected flag true and
clears the error (first conjunct); and in the concrete run consisting of
mount plus one successful initial fetch, connected is true while no
streaming socket exists at all (second conjunct) — connected does not imply
an open streaming connection. -/
theorem C10_rest_fetch_sets_connected :
    (∀ (st : HookState) (inp : FetchInput),
      inp.networkError = false → inp.tickerStatus ≠ 429 →
      200 ≤ inp.tickerStatus ∧ inp.tickerStatus < 300 →
      inp.priceParse.truthy = true →
      (fetchPriceData st inp).isConnected = true
      ∧ (fetchPriceData st inp).error = none)
    ∧ ((run "BTC-USD" [.fetchDone goodFetch]).isConnected = true
      ∧ (run "BTC-USD" [.fetchDone goodFetch]).wsRef = none
      ∧ (run "BTC-USD" [.fetchDone goodFetch]).sockets = []) := by
  refine ⟨fun st inp hn h429 hok ht => ?_, rfl, rfl, rfl⟩
  obtain ⟨_, h2, h3, _⟩ := fetchPriceData_success st inp hn h429 hok ht
  exact ⟨h3, h2⟩

/-- Witness for C10: applying the universal part to the fresh state and
`goodFetch` shows the connected flag is set by a pure REST fetch. -/
theorem C10_rest_fetch_sets_connected_witness :
    goodFetch.priceParse.truthy = true
    ∧ (fetchPriceData (initState "BTC-USD") goodFetch).isConnected = true :=
  ⟨by decide,
    (C10_rest_fetch_sets_connected.1 (initState "BTC-USD") goodFetch rfl
      (by decide) (by decide) (by decide)).1⟩

end CoinbaseTicker
